import Mathlib

/-!
# Verification of `traffic_monitor.py`

A shallow embedding of the traffic-monitoring script `src/traffic_monitor.py`
in Lean 4, together with theorems settling the specification claims.

Modelling conventions:

* Python strings are modelled as `List Char` (ASCII; the script only ever
  handles ASCII text from `vnstat` output and JSON).
* Python floats are modelled as exact rationals `ℚ`.  All arithmetic the
  claims mention (sums, means, divisions, comparisons against
  `mean + 2·stdev`) is exact in this model; `ℚ` has no NaN, so "not NaN"
  is by construction.  The one genuinely irrational operation,
  `math.sqrt` inside `statistics.stdev`, is represented by carrying the
  *square* of the standard deviation (`stdevSq`); the bridging lemma
  `gt_mean_add_two_sqrt_iff` (over `ℝ`) justifies the square-free
  rendering of the spike test used at the run level.
* A Python function that can raise is modelled as returning
  `Except Unit _`; `.error ()` stands for a raised exception
  (`ValueError` from `float(...)` is the only reachable one in the
  converter functions).
* I/O (the history file, the outbound webhook) is modelled by explicit
  state: `FileState` for the persisted history file and a list of
  emitted `Notification` events for the webhook calls.
-/

/-! ## Python string primitives -/

/-- Python whitespace for `str.strip()` and the regex class `\s`
(ASCII part): space, tab, newline, carriage return, vertical tab, form feed. -/
def isPyWs (c : Char) : Bool :=
  c = ' ' || c = '\t' || c = '\n' || c = '\r' || c = '\x0b' || c = '\x0c'

/-- Python `str.strip()`: drop whitespace from both ends. -/
def pyStrip (l : List Char) : List Char :=
  ((l.dropWhile isPyWs).reverse.dropWhile isPyWs).reverse

/-- Python `str.lower()` composed over a string (ASCII case folding,
which is all the script's inputs need). -/
def pyLower (l : List Char) : List Char :=
  l.map Char.toLower

/-- Python `str.split(sep)` for a one-character separator:
`"a||b".split('|') == ["a", "", "b"]`, `"".split('|') == [""]`. -/
def splitOnChar (sep : Char) : List Char → List (List Char)
  | [] => [[]]
  | c :: cs =>
    match splitOnChar sep cs with
    | [] => [[]]
    | h :: t => if c = sep then [] :: h :: t else (c :: h) :: t

/-- Substring test, modelling Python's `sub in s`. -/
def hasSub (s sub : List Char) : Bool :=
  s.tails.any (fun suf => sub.isPrefixOf suf)

/-- A character of the regex class `[\d.]`. -/
def isDigitDot (c : Char) : Bool :=
  c.isDigit || c = '.'

/-- The numeric value of a list of decimal digits (most significant first),
as produced by Python's `int`/`float` on a digit string. -/
def natOfDigits (l : List Char) : ℕ :=
  l.foldl (fun a c => a * 10 + (c.toNat - 48)) 0

/-- The digit data of Python `float(s)` for the strings `s` that the
regex group `[\d.]+` can produce (digits and dots only, nonempty):
`none` exactly when Python raises `ValueError` — when `s` has more than
one dot or no digit at all — and otherwise the integer-part value, the
fractional-part value and the fractional-part length. -/
def pyFloatParts? (s : List Char) : Option (ℕ × ℕ × ℕ) :=
  if 2 ≤ s.count '.' then none
  else if s.all (fun c => c = '.') then none
  else
    let ip := s.takeWhile Char.isDigit
    let fp := (s.drop ip.length).drop 1
    some (natOfDigits ip, natOfDigits fp, fp.length)

/-- Python `float(s)` on the strings the regex group `[\d.]+` can
produce: the exact decimal value, or `none` for a `ValueError`. -/
def pyFloat? (s : List Char) : Option ℚ :=
  (pyFloatParts? s).map (fun p => (p.1 : ℚ) + (p.2.1 : ℚ) / 10 ^ p.2.2)

/-! ## Unit Converter (`convert_to_bytes`, `convert_rate_to_bps`) -/

/-- The anchored match of `re.match(r'([\d.]+)\s*([kmgt]?i?b)', s)`:
returns the text of group 1 (the magnitude) and group 2 (the unit), or
`none` when the pattern does not match at the start of `s`.  The
character classes `[\d.]`, `\s` and `[kmgt]`/`i`/`b` are pairwise
disjoint, so the greedy, backtracking-free scan below is exactly the
regex semantics. -/
def matchBytesPattern (s : List Char) : Option (List Char × List Char) :=
  let mag := s.takeWhile isDigitDot
  if mag.isEmpty then none
  else
    let rest := (s.drop mag.length).dropWhile isPyWs
    let (pfx, r1) :=
      match rest with
      | c :: cs => if c = 'k' || c = 'm' || c = 'g' || c = 't' then ([c], cs) else ([], rest)
      | [] => (([] : List Char), rest)
    let (ii, r2) :=
      match r1 with
      | c :: cs => if c = 'i' then (['i'], cs) else (([] : List Char), r1)
      | [] => (([] : List Char), r1)
    match r2 with
    | 'b' :: _ => some (mag, pfx ++ ii ++ ['b'])
    | _ => none

/-- The `multipliers` dict of `convert_to_bytes` together with the
`.get(unit, 1)` default: only the keys `b`, `kib`, `mib`, `gib`, `tib`
are present; every other matched unit (such as `kb`, `mb`, `gb`, `tb`,
`ib`) falls through to the default multiplier 1. -/
def bytesMult (u : List Char) : ℚ :=
  if u = ['b'] then 1
  else if u = ['k', 'i', 'b'] then 1024
  else if u = ['m', 'i', 'b'] then 1024 ^ 2
  else if u = ['g', 'i', 'b'] then 1024 ^ 3
  else if u = ['t', 'i', 'b'] then 1024 ^ 4
  else 1

/-- `TrafficMonitor.convert_to_bytes` (lines 254-273): strip and lowercase,
match `([\d.]+)\s*([kmgt]?i?b)`, return 0.0 on no match, otherwise
`float(group 1) * multipliers.get(group 2, 1)`.  `.error ()` models the
`ValueError` that `float` raises when group 1 is dots-only or has two
dots (e.g. on input `".b"`). -/
def convert_to_bytes (s : List Char) : Except Unit ℚ :=
  let t := pyLower (pyStrip s)
  match matchBytesPattern t with
  | none => .ok 0
  | some (mag, unit) =>
    match pyFloat? mag with
    | none => .error ()
    | some v => .ok (v * bytesMult unit)

/-- The rate `multipliers` dict of `convert_rate_to_bps` with its
`.get(unit, 1)` default; the regex group 2 is `(k|m|g|t)?`, `none`
modelling Python's `None or ''`. -/
def rateMult (p : Option Char) : ℚ :=
  match p with
  | none => 1
  | some c =>
    if c = 'k' then 1000
    else if c = 'm' then 1000 ^ 2
    else if c = 'g' then 1000 ^ 3
    else if c = 't' then 1000 ^ 4
    else 1

/-- The anchored match of `re.match(r'([\d.]+)\s*(k|m|g|t)?\s*bit/s', s)`:
group 1 and the optional group 2.  As for the bytes pattern, the
relevant character classes are disjoint so no backtracking arises. -/
def matchRatePattern (s : List Char) : Option (List Char × Option Char) :=
  let mag := s.takeWhile isDigitDot
  if mag.isEmpty then none
  else
    let rest := (s.drop mag.length).dropWhile isPyWs
    let (pfx, r1) :=
      match rest with
      | c :: cs =>
        if c = 'k' || c = 'm' || c = 'g' || c = 't' then (some c, cs) else (none, rest)
      | [] => ((none : Option Char), rest)
    let r2 := r1.dropWhile isPyWs
    if ("bit/s".toList).isPrefixOf r2 then some (mag, pfx) else none

/-- `TrafficMonitor.convert_rate_to_bps` (lines 275-288): strip and
lowercase; if `'bit/s'` occurs as a substring, match the rate pattern and
return `float(group 1) * multipliers.get(group 2 or '', 1)`; in every
other case return 0.0.  `.error ()` models a `ValueError` from `float`. -/
def convert_rate_to_bps (s : List Char) : Except Unit ℚ :=
  let t := pyLower (pyStrip s)
  if hasSub t ("bit/s".toList) then
    match matchRatePattern t with
    | none => .ok 0
    | some (mag, pfx) =>
      match pyFloat? mag with
      | none => .error ()
      | some v => .ok (v * rateMult pfx)
  else .ok 0

/-! ## Data model -/

/-- `TrafficData` (the `NamedTuple`, lines 25-32).  The `timestamp` field
(`datetime.now().isoformat()`, a wall-clock reading) lies outside the pure
model and is omitted; every claim concerns the remaining fields. -/
structure TrafficData where
  time : List Char
  rx_bytes : ℚ
  tx_bytes : ℚ
  total_bytes : ℚ
  avg_rate_bps : ℚ
deriving DecidableEq, Repr

/-- One record of the persisted history file: the dict built in
`add_to_history` (lines 103-110), holding the serialized counterparts of
the measurement fields (again without the wall-clock `timestamp`). -/
structure HistoryRecord where
  time : List Char
  rx_bytes : ℚ
  tx_bytes : ℚ
  total_bytes : ℚ
  avg_rate_bps : ℚ
deriving DecidableEq, Repr

/-- The serialization step of `add_to_history`: the `current_record`
dict copies each measurement field verbatim. -/
def toRecord (d : TrafficData) : HistoryRecord :=
  ⟨d.time, d.rx_bytes, d.tx_bytes, d.total_bytes, d.avg_rate_bps⟩

/-! ## Sample Parser (`get_current_traffic_data`) -/

/-- `re.search(r'(\d{2}:\d{2})', s)`: the leftmost two-digit, colon,
two-digit time label of `s`, or `none`. -/
def searchTime : List Char → Option (List Char)
  | [] => none
  | x :: xs =>
    match xs with
    | d2 :: cc :: d3 :: d4 :: _ =>
      if x.isDigit && d2.isDigit && cc = ':' && d3.isDigit && d4.isDigit then
        some [x, d2, cc, d3, d4]
      else searchTime xs
    | _ => none

/-- The continuation of `re.search(r'\d{2}:\d{2}\s+(.+)', s)` after a time
label: `rest` is the text following the label.  `\s+` is greedy but
backtracks one character when `(.+)` would otherwise be empty (`.`
matches a space), so the match succeeds iff `rest` starts with a
whitespace character and has at least two characters; group 1 is then
the remainder after the consumed whitespace run. -/
def rxTail (rest : List Char) : Option (List Char) :=
  let w := (rest.takeWhile isPyWs).length
  if w = 0 then none
  else if rest.length ≤ w then
    if 2 ≤ w then some (rest.drop (w - 1)) else none
  else some (rest.drop w)

/-- `re.search(r'\d{2}:\d{2}\s+(.+)', s)`: group 1 at the leftmost
position where the whole pattern matches, or `none`. -/
def searchRx : List Char → Option (List Char)
  | [] => none
  | x :: xs =>
    match xs with
    | d2 :: cc :: d3 :: d4 :: rest =>
      if x.isDigit && d2.isDigit && cc = ':' && d3.isDigit && d4.isDigit then
        match rxTail rest with
        | some g => some g
        | none => searchRx xs
      else searchRx xs
    | _ => none

/-- The per-line body of the loop in `get_current_traffic_data`
(lines 299-337).  Returns the measurement a line contributes, or `none`
when the line is skipped: no time label anywhere in the line, fewer than
4 pipe-delimited fields, no time label in field 0, or a `ValueError`
raised by one of the four unit conversions (caught by the
`except (ValueError, IndexError)` and turned into `continue`). -/
def parseLine (line : List Char) : Option TrafficData :=
  if (searchTime line).isSome then
    let parts := (splitOnChar '|' line).map pyStrip
    if 4 ≤ parts.length then
      match searchTime (parts.getD 0 []) with
      | none => none
      | some time =>
        let rx_str :=
          match searchRx (parts.getD 0 []) with
          | some g => pyStrip g
          | none => "0 B".toList
        match convert_to_bytes rx_str, convert_to_bytes (parts.getD 1 []),
              convert_to_bytes (parts.getD 2 []), convert_rate_to_bps (parts.getD 3 []) with
        | .ok rx, .ok tx, .ok total, .ok rate => some ⟨time, rx, tx, total, rate⟩
        | _, _, _, _ => none
    else none
  else none

/-- One iteration of the `latest_data` accumulator: a line that parses
replaces the previous candidate, a skipped line leaves it unchanged. -/
def stepLine (acc : Option TrafficData) (line : List Char) : Option TrafficData :=
  match parseLine line with
  | some d => some d
  | none => acc

/-- `TrafficMonitor.get_current_traffic_data` (lines 290-343), applied to
the raw text the counter source produced: `output.strip().split('\n')`,
then the loop over lines keeping the last successfully parsed one. -/
def get_current_traffic_data (raw : List Char) : Option TrafficData :=
  (splitOnChar '\n' (pyStrip raw)).foldl stepLine none

/-! ## History Store (`load_history`, `save_history`, `add_to_history`) -/

/-- `MAX_HISTORY` (line 23). -/
def MAX_HISTORY : ℕ := 20

/-- One element obtained by iterating a decoded, sized JSON value:
either a dict carrying the expected measurement fields with numeric
values (a well-formed history record), or anything else — a number, a
character of an iterated string, a key of an iterated dict, a dict
missing keys, or a dict with non-numeric values.  On every `bad`
element, the statistics stage raises (`TypeError`/`KeyError` at
`record['total_bytes']`, or `TypeError` inside `statistics.mean`). -/
inductive JsonItem where
  | record (r : HistoryRecord)
  | bad
deriving DecidableEq

/-- A decoded JSON value that supports `len()`: a JSON array with its
elements, or a string/object (sized and iterable, but iterating yields
characters or keys — never records — and it has no `.append`). -/
inductive JsonValue where
  | arr (items : List JsonItem)
  | strOrDict (n : ℕ)
deriving DecidableEq

/-- The persisted history file: absent; present but not decodable as
JSON (`json.JSONDecodeError`, or an `IOError` while reading — both
caught); decodable to a value without `len()` (a number, boolean or
null); or decodable to a sized value. -/
inductive FileState where
  | absent
  | corrupt
  | unsized
  | decoded (v : JsonValue)
deriving DecidableEq

/-- `TrafficMonitor.load_history` (lines 69-82): an absent file and a
file that fails to decode both yield the empty history (the condition is
logged); otherwise the function logs
`f"Loaded {len(history)} historical records"` (line 78) and returns the
decoded value.  When the decoded value has no `len()` (file content `5`,
`true`, `null`), that log line raises `TypeError`, which the
`except (json.JSONDecodeError, IOError)` clause does *not* catch — the
call does not return normally, modelled as `.error ()`. -/
def load_history : FileState → Except Unit JsonValue
  | .absent => .ok (.arr [])
  | .corrupt => .ok (.arr [])
  | .unsized => .error ()
  | .decoded v => .ok v

/-- The truncation in `save_history` (lines 88-89):
`history[-MAX_HISTORY:]` when the length exceeds `MAX_HISTORY`. -/
def save_trim (history : List HistoryRecord) : List HistoryRecord :=
  if MAX_HISTORY < history.length then history.drop (history.length - MAX_HISTORY)
  else history

/-- The same `history[-MAX_HISTORY:]` truncation applied to the decoded
JSON list `add_to_history` actually manipulates. -/
def save_trimJson (history : List JsonItem) : List JsonItem :=
  if MAX_HISTORY < history.length then history.drop (history.length - MAX_HISTORY)
  else history

/-- `TrafficMonitor.save_history` (lines 84-96): truncate to the most
recent `MAX_HISTORY` entries and rewrite the file (as a JSON array). -/
def save_history (history : List JsonItem) : FileState :=
  .decoded (.arr (save_trimJson history))

/-- The pure core of `add_to_history` (lines 112-116) on a well-formed
record list: append the new record, then keep only the most recent
`MAX_HISTORY` records. -/
def addRecord (history : List HistoryRecord) (r : HistoryRecord) : List HistoryRecord :=
  let h := history ++ [r]
  if MAX_HISTORY < h.length then h.drop (h.length - MAX_HISTORY) else h

/-- `TrafficMonitor.add_to_history` (lines 98-119): load, append the
serialized measurement, trim, save; returns the new file state and the
updated (returned) history list.  It re-raises `load_history`'s
`TypeError`, and when the loaded value is a string or dict the
`history.append(...)` call at line 112 raises `AttributeError` —
both modelled as `.error ()`. -/
def add_to_history (fs : FileState) (d : TrafficData) :
    Except Unit (FileState × List JsonItem) :=
  match load_history fs with
  | .error e => .error e
  | .ok (.strOrDict _) => .error ()
  | .ok (.arr history) =>
    let h := history ++ [JsonItem.record (toRecord d)]
    let h2 := if MAX_HISTORY < h.length then h.drop (h.length - MAX_HISTORY) else h
    .ok (save_history h2, h2)

/-! ## Baseline Statistics (`calculate_historical_stats`) -/

/-- The `stats['total_traffic']` dict (lines 128-134).  `stdevSq` carries
the square of `statistics.stdev`'s value: `statistics.stdev xs` is
`√(Σ(x - mean)² / (n - 1))`, and the square root is irrational, so the
exact model keeps the radicand.  `stdev = 0` in the code corresponds
exactly to `stdevSq = 0` here. -/
structure TotalTrafficStats where
  mean : ℚ
  stdevSq : ℚ
  count : ℕ
deriving DecidableEq, Repr

/-- `statistics.mean` on rationals. -/
def listMean (l : List ℚ) : ℚ :=
  l.sum / l.length

/-- The square of `statistics.stdev` (sample standard deviation,
Bessel-corrected): `Σ (x - mean)² / (n - 1)`. -/
def sampleVarQ (l : List ℚ) : ℚ :=
  (l.map (fun x => (x - listMean l) ^ 2)).sum / ((l.length : ℚ) - 1)

/-- `TrafficMonitor.calculate_historical_stats` (lines 121-136): the
empty dict `{}` for an empty history (modelled as `none`), otherwise
mean, stdev (here its square) and count of the `total_bytes` column,
with stdev defined as 0 when only one record exists. -/
def calculate_historical_stats (history : List HistoryRecord) : Option TotalTrafficStats :=
  if history.isEmpty then none
  else
    let total_bytes := history.map (·.total_bytes)
    some
      { mean := listMean total_bytes
        stdevSq := if 1 < total_bytes.length then sampleVarQ total_bytes else 0
        count := total_bytes.length }

/-- The comprehension `[record['total_bytes'] for record in history]`
(line 126) over a decoded JSON list: `none` when any element is not a
well-formed record (the subscription or the subsequent
`statistics.mean`/`statistics.stdev` call raises). -/
def asRecords? : List JsonItem → Option (List HistoryRecord)
  | [] => some []
  | .record r :: rest => (asRecords? rest).map (fun l => r :: l)
  | .bad :: _ => none

/-- `calculate_historical_stats` applied to the value `load_history`
actually returned.  An empty value (empty array, but also an empty
string or dict, which are equally falsy at line 123) yields the empty
dict; a nonempty array of well-formed records yields the stats; any
nonempty value with a non-record element raises (`.error ()`). -/
def calculate_historical_stats_json (v : JsonValue) :
    Except Unit (Option TotalTrafficStats) :=
  match v with
  | .arr items =>
    if items.isEmpty then .ok none
    else
      match asRecords? items with
      | none => .error ()
      | some records => .ok (calculate_historical_stats records)
  | .strOrDict n =>
    if n = 0 then .ok none else .error ()

/-! ## Spike Detector (`detect_spike`) -/

/-- `SPIKE_THRESHOLD` (line 22). -/
def SPIKE_THRESHOLD : ℚ := 2

/-- The statistics dict as `detect_spike` reads it: arbitrary `mean` and
`stdev` values (rationals in the model). -/
structure SpikeStats where
  mean : ℚ
  stdev : ℚ
  count : ℕ
deriving DecidableEq, Repr

/-- `TrafficMonitor.detect_spike` (lines 138-166): `(False, 0.0)` when no
stats are available or `stdev == 0`; otherwise
`z = (total_bytes - mean) / stdev` and
`is_spike = total_bytes > mean + SPIKE_THRESHOLD * stdev`. -/
def detect_spike (current : TrafficData) (stats : Option SpikeStats) : Bool × ℚ :=
  match stats with
  | none => (false, 0)
  | some s =>
    if s.stdev = 0 then (false, 0)
    else
      let z := (current.total_bytes - s.mean) / s.stdev
      let threshold := s.mean + SPIKE_THRESHOLD * s.stdev
      (decide (threshold < current.total_bytes), z)

/-- `detect_spike`'s boolean decision evaluated at the stats
`calculate_historical_stats` produces, with the square root eliminated:
since the code's `stdev` is `√stdevSq ≥ 0`, the guard `stdev == 0` is
`stdevSq = 0` and the test `total > mean + 2·√stdevSq` is
`total > mean ∧ (total - mean)² > 4·stdevSq` (lemma
`gt_mean_add_two_sqrt_iff`). -/
def detectSq (total : ℚ) (stats : Option TotalTrafficStats) : Bool :=
  match stats with
  | none => false
  | some s =>
    if s.stdevSq = 0 then false
    else decide (s.mean < total) && decide (4 * s.stdevSq < (total - s.mean) ^ 2)

/-! ## Notifier and Run Controller -/

/-- The spike-alert payload built by `send_spike_alert` (lines 207-237).
The display-only `*_formatted` string fields (`format_bytes` /
`format_rate` output) and the wall-clock `timestamp` are omitted; the
historical stats carry `stdevSq` as explained at `TotalTrafficStats`. -/
structure SpikeAlertPayload where
  spike_time : List Char
  total_bytes : ℚ
  rx_bytes : ℚ
  tx_bytes : ℚ
  avg_rate_bps : ℚ
  z_score : ℚ
  threshold : ℚ
  stats_mean : ℚ
  stats_stdevSq : ℚ
  stats_count : ℕ
deriving DecidableEq, Repr

/-- Round half to even (Python's `round` on a float whose value is
exactly representable, e.g. `round(0.125, 2) == 0.12`). -/
def roundHalfEven (x : ℚ) : ℤ :=
  let f := ⌊x⌋
  let r := x - f
  if r < 1 / 2 then f
  else if 1 / 2 < r then f + 1
  else if Even f then f else f + 1

/-- Python `round(z, 2)`. -/
def pyRound2 (z : ℚ) : ℚ :=
  (roundHalfEven (z * 100) : ℚ) / 100

/-- `TrafficMonitor.send_spike_alert` (lines 207-237) as a payload
constructor: the `"threshold"` field is the constant `SPIKE_THRESHOLD`
and `"z_score"` is `round(z_score, 2)`. -/
def send_spike_alert (current : TrafficData) (z_score : ℚ) (stats : TotalTrafficStats) :
    SpikeAlertPayload :=
  { spike_time := current.time
    total_bytes := current.total_bytes
    rx_bytes := current.rx_bytes
    tx_bytes := current.tx_bytes
    avg_rate_bps := current.avg_rate_bps
    z_score := pyRound2 z_score
    threshold := SPIKE_THRESHOLD
    stats_mean := stats.mean
    stats_stdevSq := stats.stdevSq
    stats_count := stats.count }

/-- The outbound webhook calls a run can make, by payload type. -/
inductive Notification where
  | spikeAlert
  | healthOk
  | healthError
deriving DecidableEq, Repr

/-- The observable outcome of one `run_check` invocation: its boolean
return value, the webhook calls it issued in order, and the resulting
history-file state. -/
structure RunResult where
  success : Bool
  notifications : List Notification
  file : FileState
deriving DecidableEq

/-- `TrafficMonitor.run_check` (lines 361-424) over the pure inputs: the
parse result of the counter-source output (`None` models both a failed
`vnstat` invocation and text with no usable line, since
`get_current_traffic_data` catches every exception and returns `None`)
and the state of the history file.  On `None` the function returns
`False` at line 377, before any webhook call or file write.  Otherwise
it loads history, computes stats, runs the detector, sends the spike
alert when one is detected, always sends the healthy health check, and
appends the measurement to the history file.  An exception raised by
the load, stats, or append stage falls into the `except` arm at line
405, which sends an error health-check (on top of whatever was already
sent) and returns `False`. -/
def run_check (parsed : Option TrafficData) (fs : FileState) : RunResult :=
  match parsed with
  | none => ⟨false, [], fs⟩
  | some current =>
    match load_history fs with
    | .error _ => ⟨false, [Notification.healthError], fs⟩
    | .ok v =>
      match calculate_historical_stats_json v with
      | .error _ => ⟨false, [Notification.healthError], fs⟩
      | .ok stats =>
        let is_spike := detectSq current.total_bytes stats
        let notifs :=
          (if is_spike then [Notification.spikeAlert] else []) ++ [Notification.healthOk]
        match add_to_history fs current with
        | .error _ => ⟨false, notifs ++ [Notification.healthError], fs⟩
        | .ok (fs', _) => ⟨true, notifs, fs'⟩

/-! ## Evaluation helpers

Concrete `ℚ` arithmetic does not reduce definitionally (the rational
operations normalize through `Nat.gcd`), so concrete runs of the
converters are evaluated in two stages: the string processing by
`decide`, the final rational arithmetic by `norm_num`. -/

lemma pyFloat?_of_parts (s : List Char) (a b k : ℕ)
    (h : pyFloatParts? s = some (a, b, k)) :
    pyFloat? s = some ((a : ℚ) + (b : ℚ) / 10 ^ k) := by
  simp [pyFloat?, h]

lemma pyFloat?_none_of_parts (s : List Char) (h : pyFloatParts? s = none) :
    pyFloat? s = none := by
  simp [pyFloat?, h]

lemma convert_to_bytes_of_match (s mag unit : List Char) (v : ℚ)
    (hm : matchBytesPattern (pyLower (pyStrip s)) = some (mag, unit))
    (hv : pyFloat? mag = some v) :
    convert_to_bytes s = .ok (v * bytesMult unit) := by
  simp only [convert_to_bytes, hm, hv]

lemma convert_to_bytes_of_no_match (s : List Char)
    (hm : matchBytesPattern (pyLower (pyStrip s)) = none) :
    convert_to_bytes s = .ok 0 := by
  simp only [convert_to_bytes, hm]

lemma convert_to_bytes_raises (s mag unit : List Char)
    (hm : matchBytesPattern (pyLower (pyStrip s)) = some (mag, unit))
    (hv : pyFloat? mag = none) :
    convert_to_bytes s = .error () := by
  simp only [convert_to_bytes, hm, hv]

/-! ## Example values used by witnesses -/

/-- A concrete measurement: the spec's worked example, `total_bytes = 1250`. -/
def exMeasHigh : TrafficData := ⟨"14:30".toList, 1200, 50, 1250, 120000⟩

/-- A concrete measurement with `total_bytes = 1150`. -/
def exMeasLow : TrafficData := ⟨"14:30".toList, 1100, 50, 1150, 120000⟩

/-- A concrete history record. -/
def exRec1 : HistoryRecord := ⟨"13:00".toList, 1, 1, 1000, 8000⟩

/-- A second concrete history record. -/
def exRec2 : HistoryRecord := ⟨"13:05".toList, 2, 2, 1010, 8000⟩

/-- A concrete two-line counter-source output whose last time-labelled
line carries `1.70 MiB` total. -/
def exRaw : List Char :=
  (" 13:00  1 KiB | 1 KiB | 2 KiB | 8 kbit/s\ngarbage | x | y | z\n"
    ++ " 14:30    1.20 MiB |   500.00 KiB |    1.70 MiB |  120 kbit/s\n").toList

/-! ## Justification of the square-free spike test -/

/-- Over the reals, for a positive variance `v`,
`x > m + 2·√v` is equivalent to `x > m` and `(x - m)² > 4·v`.  This is
the identity under which `detectSq` renders `detect_spike`'s comparison
against `mean + SPIKE_THRESHOLD·stdev` with `stdev = √stdevSq`. -/
lemma gt_mean_add_two_sqrt_iff (x m v : ℝ) (hv : 0 < v) :
    m + 2 * Real.sqrt v < x ↔ (m < x ∧ 4 * v < (x - m) ^ 2) := by
  have hsq : Real.sqrt v ^ 2 = v := Real.sq_sqrt hv.le
  have hs0 : 0 < Real.sqrt v := Real.sqrt_pos.mpr hv
  constructor
  · intro h
    constructor
    · nlinarith
    · nlinarith
  · rintro ⟨h1, h2⟩
    nlinarith [sq_nonneg (x - m - 2 * Real.sqrt v), sq_nonneg (x - m + 2 * Real.sqrt v)]

/-! ## C1: spike detection -/

/-- **C1.**  For every measurement and baseline: with no baseline, or
with `stdev = 0`, `detect_spike` returns `(false, 0)`; otherwise the
returned z-score is `(total_bytes - mean) / stdev` and the spike flag
holds exactly when `total_bytes > mean + 2·stdev` (one-sided upper-tail
test).  At `mean = 1000`, `stdev = 100` the measurement with
`total_bytes = 1250` yields `(true, 2.5)` and the one with
`total_bytes = 1150` is not a spike. -/
theorem detect_spike_matches_spec (current : TrafficData) (mean stdev : ℚ) (c₁ c₂ c₃ : ℕ)
    (h : stdev ≠ 0) :
    detect_spike current none = (false, 0) ∧
    detect_spike current (some ⟨mean, 0, c₁⟩) = (false, 0) ∧
    (detect_spike current (some ⟨mean, stdev, c₂⟩)).2 = (current.total_bytes - mean) / stdev ∧
    ((detect_spike current (some ⟨mean, stdev, c₂⟩)).1 = true ↔
      current.total_bytes > mean + 2 * stdev) ∧
    detect_spike exMeasHigh (some ⟨1000, 100, c₃⟩) = (true, 5 / 2) ∧
    (detect_spike exMeasLow (some ⟨1000, 100, c₃⟩)).1 = false := by
  refine ⟨rfl, by simp [detect_spike], by simp [detect_spike, h], ?_, ?_, ?_⟩
  · simp [detect_spike, h, SPIKE_THRESHOLD, gt_iff_lt]
  · simp only [detect_spike, exMeasHigh, SPIKE_THRESHOLD]
    norm_num
  · simp only [detect_spike, exMeasLow, SPIKE_THRESHOLD]
    norm_num

/-- Witness for C1 at `mean = 1000`, `stdev = 100`, `total_bytes = 1250`. -/
theorem detect_spike_matches_spec_witness :
    (detect_spike exMeasHigh (some ⟨1000, 100, 3⟩)).2 = (exMeasHigh.total_bytes - 1000) / 100 ∧
    ((detect_spike exMeasHigh (some ⟨1000, 100, 3⟩)).1 = true ↔
      exMeasHigh.total_bytes > 1000 + 2 * 100) ∧
    detect_spike exMeasHigh (some ⟨1000, 100, 3⟩) = (true, 5 / 2) :=
  ⟨(detect_spike_matches_spec exMeasHigh 1000 100 3 3 3 (by norm_num)).2.2.1,
   (detect_spike_matches_spec exMeasHigh 1000 100 3 3 3 (by norm_num)).2.2.2.1,
   (detect_spike_matches_spec exMeasHigh 1000 100 3 3 3 (by norm_num)).2.2.2.2.1⟩

/-! ## C2: byte-unit conversion table -/

/-- **C2 counterexample.**  The claim says the "i" before the trailing
"b" is optional, e.g. `"12 KB"` should convert like `"12 KiB"` to
`12 · 1024¹`.  In the code, `"12 KB"` matches the pattern with unit
`kb`, which is *not* a key of the multipliers dict, so the default
multiplier 1 applies: the result is `12`, not `12 · 1024¹ = 12288`. -/
theorem convert_to_bytes_optional_i_counterexample :
    convert_to_bytes ("12 KB".toList) = .ok 12 ∧
    convert_to_bytes ("12 KiB".toList) = .ok (12 * 1024 ^ 1) ∧
    (12 : ℚ) ≠ 12 * 1024 ^ 1 := by
  refine ⟨?_, ?_, by norm_num⟩
  · rw [convert_to_bytes_of_match _ ['1', '2'] ['k', 'b'] 12 (by decide)
      (by rw [pyFloat?_of_parts _ 12 0 0 (by decide)]; norm_num)]
    rw [show bytesMult ['k', 'b'] = 1 from rfl, mul_one]
  · rw [convert_to_bytes_of_match _ ['1', '2'] ['k', 'i', 'b'] 12 (by decide)
      (by rw [pyFloat?_of_parts _ 12 0 0 (by decide)]; norm_num)]
    rw [show bytesMult ['k', 'i', 'b'] = 1024 from rfl, pow_one]

/-- **C2 (amended).**  When the stripped, lowercased input matches
`([\d.]+)\s*([kmgt]?i?b)` with a magnitude that is a valid float
literal, `convert_to_bytes` returns `magnitude · multiplier(unit)`,
where the multiplier is `1024^k` for the units `b`, `kib`, `mib`,
`gib`, `tib` (k = 0..4) but `1` for the i-less forms `kb`, `mb`, `gb`,
`tb` and for the bare `ib`, which match the pattern yet are not keys of
the multipliers dict; any input not matching the pattern yields 0. -/
theorem convert_to_bytes_unit_table (s s' mag unit : List Char) (v : ℚ)
    (hm : matchBytesPattern (pyLower (pyStrip s)) = some (mag, unit))
    (hv : pyFloat? mag = some v)
    (hn : matchBytesPattern (pyLower (pyStrip s')) = none) :
    convert_to_bytes s = .ok (v * bytesMult unit) ∧
    convert_to_bytes s' = .ok 0 ∧
    bytesMult ['b'] = 1024 ^ 0 ∧
    bytesMult ['k', 'i', 'b'] = 1024 ^ 1 ∧
    bytesMult ['m', 'i', 'b'] = 1024 ^ 2 ∧
    bytesMult ['g', 'i', 'b'] = 1024 ^ 3 ∧
    bytesMult ['t', 'i', 'b'] = 1024 ^ 4 ∧
    bytesMult ['k', 'b'] = 1 ∧ bytesMult ['m', 'b'] = 1 ∧
    bytesMult ['g', 'b'] = 1 ∧ bytesMult ['t', 'b'] = 1 ∧ bytesMult ['i', 'b'] = 1 := by
  refine ⟨?_, ?_, by rw [pow_zero]; rfl, by rw [pow_one]; rfl, rfl, rfl, rfl, rfl, rfl, rfl, rfl, rfl⟩
  · simp only [convert_to_bytes, hm, hv]
  · simp only [convert_to_bytes, hn]

/-- Witness for C2 (amended) at `"12 KiB"` (matching) and `"hello"`
(not matching). -/
theorem convert_to_bytes_unit_table_witness :
    convert_to_bytes ("12 KiB".toList) = .ok (12 * bytesMult ['k', 'i', 'b']) ∧
    convert_to_bytes ("hello".toList) = .ok 0 :=
  ⟨(convert_to_bytes_unit_table ("12 KiB".toList) ("hello".toList) ['1', '2']
      ['k', 'i', 'b'] 12 (by decide)
      (by rw [pyFloat?_of_parts _ 12 0 0 (by decide)]; norm_num) (by decide)).1,
   (convert_to_bytes_unit_table ("12 KiB".toList) ("hello".toList) ['1', '2']
      ['k', 'i', 'b'] 12 (by decide)
      (by rw [pyFloat?_of_parts _ 12 0 0 (by decide)]; norm_num) (by decide)).2.1⟩

/-! ## C3: the converter can raise -/

/-- **C3 counterexample.**  The claim says `convert_to_bytes` returns
normally on every input.  On `".b"` the pattern matches with magnitude
`"."`, and `float(".")` raises `ValueError`, so the call does not return
normally (`.error ()` in the model). -/
theorem convert_to_bytes_valueerror_counterexample :
    convert_to_bytes (".b".toList) = .error () ∧
    convert_to_bytes ("1.2.3 kb".toList) = .error () :=
  ⟨convert_to_bytes_raises _ ['.'] ['b'] (by decide) (pyFloat?_none_of_parts _ (by decide)),
   convert_to_bytes_raises _ ['1', '.', '2', '.', '3'] ['k', 'b'] (by decide)
     (pyFloat?_none_of_parts _ (by decide))⟩

/-- **C3 (amended).**  `convert_to_bytes` raises (`.error ()`) exactly
when the unit pattern matches but the magnitude group is not a valid
float literal (dots only, or more than one dot); in every other case it
returns normally, and in particular it returns 0 whenever the pattern
does not match. -/
theorem convert_to_bytes_error_iff (s : List Char) :
    (convert_to_bytes s = .error () ↔
      ∃ mag unit, matchBytesPattern (pyLower (pyStrip s)) = some (mag, unit) ∧
        pyFloat? mag = none) ∧
    ((matchBytesPattern (pyLower (pyStrip s))).isNone → convert_to_bytes s = .ok 0) := by
  constructor
  · constructor
    · intro h
      rcases hm : matchBytesPattern (pyLower (pyStrip s)) with _ | ⟨mag, unit⟩
      · rw [convert_to_bytes_of_no_match s hm] at h
        exact absurd h (by simp)
      · rcases hv : pyFloat? mag with _ | v
        · exact ⟨mag, unit, rfl, hv⟩
        · rw [convert_to_bytes_of_match s mag unit v hm hv] at h
          exact absurd h (by simp)
    · rintro ⟨mag, unit, hm, hv⟩
      exact convert_to_bytes_raises s mag unit hm hv
  · intro h
    rcases hm : matchBytesPattern (pyLower (pyStrip s)) with _ | ⟨mag, unit⟩
    · exact convert_to_bytes_of_no_match s hm
    · rw [hm] at h
      exact absurd h (by simp)

/-- Witness for the C3 amended theorem at the concrete input `"hello"`
(no match, so no error and result 0). -/
theorem convert_to_bytes_error_iff_witness :
    (convert_to_bytes ("hello".toList) = .error () ↔
      ∃ mag unit, matchBytesPattern (pyLower (pyStrip ("hello".toList))) = some (mag, unit) ∧
        pyFloat? mag = none) ∧
    ((matchBytesPattern (pyLower (pyStrip ("hello".toList)))).isNone →
      convert_to_bytes ("hello".toList) = .ok 0) :=
  convert_to_bytes_error_iff ("hello".toList)

/-! ## C7: no measurement means no side effects and failure -/

/-- **C7.**  When no measurement is obtainable (the `vnstat` call failed
or no line parsed, i.e. the parse result is `None`), `run_check` sends
no notification of any kind, leaves the history file untouched, and
returns failure. -/
theorem run_check_no_measurement (fs : FileState) :
    (run_check none fs).notifications = [] ∧
    (run_check none fs).file = fs ∧
    (run_check none fs).success = false :=
  ⟨rfl, rfl, rfl⟩

/-! ## C8: history-file faults -/

/-- **C10.**  In every spike-alert payload the `"threshold"` field is
the fixed z-score multiplier `SPIKE_THRESHOLD = 2`, not the byte-valued
cutoff `mean + 2·stdev` of the spike decision (at the spec's example
stats, `2 ≠ 1000 + 2·100`), and the `"z_score"` field is the z-score
rounded to two decimal places. -/
theorem spike_alert_payload_fields (current : TrafficData) (z : ℚ) (stats : TotalTrafficStats) :
    (send_spike_alert current z stats).threshold = SPIKE_THRESHOLD ∧
    (send_spike_alert current z stats).threshold = 2 ∧
    (send_spike_alert current z stats).z_score = pyRound2 z ∧
    (send_spike_alert exMeasHigh (5 / 2) ⟨1000, 10000, 5⟩).threshold ≠ 1000 + 2 * 100 ∧
    pyRound2 (5 / 2) = 5 / 2 ∧
    pyRound2 (2567 / 1000) = 257 / 100 ∧
    pyRound2 (1 / 8) = 12 / 100 := by
  refine ⟨rfl, rfl, rfl, by norm_num [send_spike_alert, SPIKE_THRESHOLD],
    by norm_num [pyRound2, roundHalfEven],
    by norm_num [pyRound2, roundHalfEven],
    by norm_num [pyRound2, roundHalfEven, Int.even_iff]⟩

/-! ## C4: bounded FIFO history -/

/-- `save_trim` is last-`MAX_HISTORY` slicing: `history[-MAX_HISTORY:]`,
which for a list of any length is `drop (length - MAX_HISTORY)`. -/
lemma save_trim_eq_drop (l : List HistoryRecord) :
    save_trim l = l.drop (l.length - MAX_HISTORY) := by
  unfold save_trim
  split
  · rfl
  · rename_i h
    rw [Nat.sub_eq_zero_of_le (by omega), List.drop_zero]

/-- `addRecord` appends then keeps the most recent `MAX_HISTORY`. -/
lemma addRecord_eq_drop (l : List HistoryRecord) (r : HistoryRecord) :
    addRecord l r = (l ++ [r]).drop ((l ++ [r]).length - MAX_HISTORY) := by
  simp only [addRecord]
  split
  · rfl
  · rename_i h
    rw [Nat.sub_eq_zero_of_le (by omega), List.drop_zero]

/-- Keeping the last `n` elements, appending, and keeping the last `n`
again is the same as keeping the last `n` of the whole concatenation. -/
lemma drop_last_append {α : Type} (n : ℕ) (l m : List α) :
    (l.drop (l.length - n) ++ m).drop ((l.drop (l.length - n) ++ m).length - n)
      = (l ++ m).drop ((l ++ m).length - n) := by
  rw [List.drop_append_eq_append_drop, List.drop_append_eq_append_drop,
    List.drop_drop]
  have hdl : (l.drop (l.length - n)).length = l.length - (l.length - n) :=
    List.length_drop ..
  rw [List.length_append, List.length_append, hdl]
  congr 1
  · congr 1
    omega
  · congr 1
    omega

/-- Folding `addRecord` over a nonempty batch of new records keeps
exactly the most recent `MAX_HISTORY` elements of the concatenation. -/
lemma foldl_addRecord_eq_drop (rs : List HistoryRecord) (l : List HistoryRecord)
    (hne : rs ≠ []) :
    rs.foldl addRecord l = (l ++ rs).drop ((l ++ rs).length - MAX_HISTORY) := by
  induction rs generalizing l with
  | nil => exact absurd rfl hne
  | cons r rs ih =>
    cases rs with
    | nil => simpa using addRecord_eq_drop l r
    | cons r2 rs2 =>
      have hstep : (r :: r2 :: rs2).foldl addRecord l
          = (r2 :: rs2).foldl addRecord (addRecord l r) := rfl
      rw [hstep, ih (addRecord l r) (by simp), addRecord_eq_drop]
      have := drop_last_append MAX_HISTORY (l ++ [r]) (r2 :: rs2)
      simpa [List.append_assoc] using this

/-- **C4.**  Starting from any loaded history, any nonempty sequence of
appends (each one `add_to_history`'s load-append-trim-save cycle on the
record list) leaves at most 20 records, and the result is exactly the
most recent 20 records of the full chronological sequence, in order:
eviction is strictly from the oldest end. -/
theorem history_bounded_fifo (l : List HistoryRecord) (rs : List HistoryRecord)
    (hne : rs ≠ []) :
    (rs.foldl addRecord l).length ≤ 20 ∧
    rs.foldl addRecord l = (l ++ rs).drop ((l ++ rs).length - 20) ∧
    save_trim (rs.foldl addRecord l) = rs.foldl addRecord l := by
  have h20 : MAX_HISTORY = 20 := rfl
  have heq := foldl_addRecord_eq_drop rs l hne
  have hlen : (rs.foldl addRecord l).length ≤ 20 := by
    rw [heq, List.length_drop, h20]
    omega
  refine ⟨hlen, by rw [heq, h20], ?_⟩
  unfold save_trim
  rw [if_neg (by omega)]

/-- Witness for C4: appending one record to a full 20-record history
evicts exactly the oldest one. -/
theorem history_bounded_fifo_witness :
    ((List.replicate 20 exRec1).foldl addRecord [] ).length ≤ 20 ∧
    ([exRec2].foldl addRecord (List.replicate 20 exRec1))
      = ((List.replicate 20 exRec1) ++ [exRec2]).drop
          (((List.replicate 20 exRec1) ++ [exRec2]).length - 20) :=
  ⟨(history_bounded_fifo [] (List.replicate 20 exRec1) (by simp)).1,
   (history_bounded_fifo (List.replicate 20 exRec1) [exRec2] (by simp)).2.1⟩

/-! ## C5: baseline statistics -/

/-- **C5.**  `calculate_historical_stats` returns nothing on an empty
history; on a single record it returns that record's `total_bytes` as
mean with standard deviation 0 and count 1; and on `n ≥ 2` records it
returns the arithmetic mean of the `total_bytes` column, the
Bessel-corrected sample variance `Σ (x - mean)² / (n - 1)` (the square
of the sample standard deviation), and the count `n`. -/
theorem calculate_historical_stats_spec (hs : List HistoryRecord) (r : HistoryRecord)
    (h2 : 2 ≤ hs.length) :
    calculate_historical_stats [] = none ∧
    calculate_historical_stats [r] = some ⟨r.total_bytes, 0, 1⟩ ∧
    calculate_historical_stats hs =
      some { mean := (hs.map (fun x => x.total_bytes)).sum / (hs.length : ℚ)
             stdevSq := (hs.map (fun x => (x.total_bytes
                 - (hs.map (fun y => y.total_bytes)).sum / (hs.length : ℚ)) ^ 2)).sum
               / ((hs.length : ℚ) - 1)
             count := hs.length } := by
  refine ⟨rfl, ?_, ?_⟩
  · simp [calculate_historical_stats, listMean]
  · rcases hs with _ | ⟨a, tl⟩
    · simp at h2
    · simp only [calculate_historical_stats, List.isEmpty_cons, Bool.false_eq_true,
        if_false, listMean, sampleVarQ, List.length_map, List.map_map]
      rw [if_pos (by simpa using h2)]
      simp [Function.comp_def]

/-- Witness for C5 at the empty, one-record and two-record histories. -/
theorem calculate_historical_stats_spec_witness :
    calculate_historical_stats [] = none ∧
    calculate_historical_stats [exRec1] = some ⟨exRec1.total_bytes, 0, 1⟩ ∧
    calculate_historical_stats [exRec1, exRec2] =
      some { mean := ([exRec1, exRec2].map (fun x => x.total_bytes)).sum
               / (([exRec1, exRec2] : List HistoryRecord).length : ℚ)
             stdevSq := ([exRec1, exRec2].map (fun x => (x.total_bytes
                 - ([exRec1, exRec2].map (fun y => y.total_bytes)).sum
                   / (([exRec1, exRec2] : List HistoryRecord).length : ℚ)) ^ 2)).sum
               / ((([exRec1, exRec2] : List HistoryRecord).length : ℚ) - 1)
             count := ([exRec1, exRec2] : List HistoryRecord).length } :=
  calculate_historical_stats_spec [exRec1, exRec2] exRec1 (by norm_num)

/-! ## C6: the last parsable line wins -/

/-- The `latest_data` loop of `get_current_traffic_data`: folding
`stepLine` returns the last line that parses, or the accumulator when
none does. -/
lemma foldl_stepLine (lines : List (List Char)) (acc : Option TrafficData) :
    lines.foldl stepLine acc =
      match (lines.filterMap parseLine).getLast? with
      | some d => some d
      | none => acc := by
  induction lines using List.reverseRecOn with
  | nil => rfl
  | append_singleton ls l ih =>
    rw [List.foldl_append, List.filterMap_append]
    cases hp : parseLine l with
    | some d =>
      simp [stepLine, hp, List.getLast?_concat]
    | none =>
      simp [stepLine, hp, ih]

/-- A line with no time label anywhere, or with fewer than 4
pipe-delimited fields, is skipped. -/
lemma parseLine_skip (l : List Char)
    (h : (searchTime l).isSome = false ∨ ((splitOnChar '|' l).map pyStrip).length < 4) :
    parseLine l = none := by
  rcases h with h | h
  · simp [parseLine, h]
  · simp only [parseLine]
    split
    · rw [if_neg (by omega)]
    · rfl

/-- **C6.**  The parse result of the counter-source text is the
measurement of the *last* line that parses (`getLast?` of the
successfully parsed lines); a line with no time label or with fewer than
4 pipe-delimited fields is skipped without aborting the parse; and when
no line yields a measurement, the parser returns `none`. -/
theorem parser_last_line_wins (raw : List Char) (l : List Char)
    (hbad : (searchTime l).isSome = false ∨ ((splitOnChar '|' l).map pyStrip).length < 4) :
    get_current_traffic_data raw
      = ((splitOnChar '\n' (pyStrip raw)).filterMap parseLine).getLast? ∧
    parseLine l = none ∧
    ((splitOnChar '\n' (pyStrip raw)).filterMap parseLine = [] →
      get_current_traffic_data raw = none) := by
  have hmain : get_current_traffic_data raw
      = ((splitOnChar '\n' (pyStrip raw)).filterMap parseLine).getLast? := by
    unfold get_current_traffic_data
    rw [foldl_stepLine]
    cases ((splitOnChar '\n' (pyStrip raw)).filterMap parseLine).getLast? <;> rfl
  refine ⟨hmain, parseLine_skip l hbad, ?_⟩
  intro hnil
  rw [hmain, hnil]
  rfl

/-- Witness for C6 at a concrete three-line text and the concrete
skipped line `"garbage | x | y | z"` (which has four fields but no time
label). -/
theorem parser_last_line_wins_witness :
    get_current_traffic_data exRaw
      = ((splitOnChar '\n' (pyStrip exRaw)).filterMap parseLine).getLast? ∧
    parseLine ("garbage | x | y | z".toList) = none :=
  ⟨(parser_last_line_wins exRaw ("garbage | x | y | z".toList) (Or.inl (by decide))).1,
   (parser_last_line_wins exRaw ("garbage | x | y | z".toList) (Or.inl (by decide))).2.1⟩

/-! ## C9: parsed measurements have non-negative fields -/

lemma pyFloat?_nonneg (s : List Char) (v : ℚ) (h : pyFloat? s = some v) : 0 ≤ v := by
  unfold pyFloat? at h
  rcases hp : pyFloatParts? s with _ | ⟨a, b, k⟩
  · rw [hp] at h
    exact absurd h (by simp)
  · rw [hp] at h
    simp only [Option.map_some'] at h
    injection h with h
    rw [← h]
    positivity

lemma bytesMult_nonneg (u : List Char) : 0 ≤ bytesMult u := by
  unfold bytesMult
  split_ifs <;> norm_num

lemma rateMult_nonneg (p : Option Char) : 0 ≤ rateMult p := by
  rcases p with _ | c
  · norm_num [rateMult]
  · simp only [rateMult]
    split_ifs <;> norm_num

lemma convert_to_bytes_ok_nonneg (s : List Char) (v : ℚ)
    (h : convert_to_bytes s = .ok v) : 0 ≤ v := by
  rcases hm : matchBytesPattern (pyLower (pyStrip s)) with _ | ⟨mag, unit⟩
  · rw [convert_to_bytes_of_no_match s hm] at h
    injection h with h
    rw [← h]
  · rcases hv : pyFloat? mag with _ | w
    · rw [convert_to_bytes_raises s mag unit hm hv] at h
      exact absurd h (by simp)
    · rw [convert_to_bytes_of_match s mag unit w hm hv] at h
      injection h with h
      rw [← h]
      exact mul_nonneg (pyFloat?_nonneg mag w hv) (bytesMult_nonneg unit)

lemma convert_rate_to_bps_ok_nonneg (s : List Char) (v : ℚ)
    (h : convert_rate_to_bps s = .ok v) : 0 ≤ v := by
  simp only [convert_rate_to_bps] at h
  by_cases hc : hasSub (pyLower (pyStrip s)) ("bit/s".toList)
  · rw [if_pos hc] at h
    rcases hmr : matchRatePattern (pyLower (pyStrip s)) with _ | ⟨mag, pfx⟩
    · simp only [hmr] at h
      injection h with h
      rw [← h]
    · simp only [hmr] at h
      rcases hv : pyFloat? mag with _ | w
      · simp only [hv] at h
        exact absurd h (by simp)
      · simp only [hv] at h
        injection h with h
        rw [← h]
        exact mul_nonneg (pyFloat?_nonneg mag w hv) (rateMult_nonneg pfx)
  · rw [if_neg hc] at h
    injection h with h
    rw [← h]

/-- Inversion of a successful `parseLine`: each numeric field of the
measurement is the result of a successful unit conversion. -/
lemma parseLine_inv (line : List Char) (d : TrafficData) (h : parseLine line = some d) :
    ∃ s₁ s₂ s₃ s₄,
      convert_to_bytes s₁ = .ok d.rx_bytes ∧
      convert_to_bytes s₂ = .ok d.tx_bytes ∧
      convert_to_bytes s₃ = .ok d.total_bytes ∧
      convert_rate_to_bps s₄ = .ok d.avg_rate_bps := by
  simp only [parseLine] at h
  by_cases h1 : (searchTime line).isSome = true
  swap
  · rw [if_neg (by simpa using h1)] at h
    exact absurd h (by simp)
  rw [if_pos h1] at h
  by_cases h2 : 4 ≤ ((splitOnChar '|' line).map pyStrip).length
  swap
  · rw [if_neg h2] at h
    exact absurd h (by simp)
  rw [if_pos h2] at h
  rcases h3 : searchTime (((splitOnChar '|' line).map pyStrip).getD 0 []) with _ | time
  · rw [h3] at h
    exact absurd h (by simp)
  rw [h3] at h
  rcases hc1 : convert_to_bytes
      (match searchRx (((splitOnChar '|' line).map pyStrip).getD 0 []) with
        | some g => pyStrip g
        | none => "0 B".toList) with e | rx
  · rw [hc1] at h
    exact absurd h (by simp)
  rw [hc1] at h
  rcases hc2 : convert_to_bytes (((splitOnChar '|' line).map pyStrip).getD 1 []) with e | tx
  · rw [hc2] at h
    exact absurd h (by simp)
  rw [hc2] at h
  rcases hc3 : convert_to_bytes (((splitOnChar '|' line).map pyStrip).getD 2 []) with e | total
  · rw [hc3] at h
    exact absurd h (by simp)
  rw [hc3] at h
  rcases hc4 : convert_rate_to_bps (((splitOnChar '|' line).map pyStrip).getD 3 [])
      with e | rate
  · rw [hc4] at h
    exact absurd h (by simp)
  rw [hc4] at h
  injection h with h
  rw [← h]
  exact ⟨_, _, _, _, hc1, hc2, hc3, hc4⟩

/-- **C9.**  Every measurement the parser produces has all its numeric
fields (`rx_bytes`, `tx_bytes`, `total_bytes`, `avg_rate_bps`)
non-negative — in the exact rational model there is no NaN — and the
serialized history-record counterparts carry the very same values.  A
failed parse produces no measurement at all (`none`), never a
measurement with a bad field. -/
theorem parser_fields_nonneg (raw : List Char) (d : TrafficData)
    (h : get_current_traffic_data raw = some d) :
    0 ≤ d.rx_bytes ∧ 0 ≤ d.tx_bytes ∧ 0 ≤ d.total_bytes ∧ 0 ≤ d.avg_rate_bps ∧
    (toRecord d).rx_bytes = d.rx_bytes ∧ (toRecord d).tx_bytes = d.tx_bytes ∧
    (toRecord d).total_bytes = d.total_bytes ∧ (toRecord d).avg_rate_bps = d.avg_rate_bps := by
  have hex : ∃ line, parseLine line = some d := by
    unfold get_current_traffic_data at h
    rw [foldl_stepLine] at h
    rcases hg : ((splitOnChar '\n' (pyStrip raw)).filterMap parseLine).getLast? with _ | x
    · rw [hg] at h
      exact absurd h (by simp)
    · rw [hg] at h
      injection h with h
      obtain ⟨line, _, hline⟩ := List.mem_filterMap.mp (List.mem_of_getLast?_eq_some hg)
      exact ⟨line, by rw [hline, h]⟩
  obtain ⟨line, hline⟩ := hex
  obtain ⟨s₁, s₂, s₃, s₄, hc1, hc2, hc3, hc4⟩ := parseLine_inv line d hline
  exact ⟨convert_to_bytes_ok_nonneg s₁ d.rx_bytes hc1,
    convert_to_bytes_ok_nonneg s₂ d.tx_bytes hc2,
    convert_to_bytes_ok_nonneg s₃ d.total_bytes hc3,
    convert_rate_to_bps_ok_nonneg s₄ d.avg_rate_bps hc4,
    rfl, rfl, rfl, rfl⟩

/-- A line whose quantity fields all fail to match any unit pattern:
it still parses, with every conversion degrading to 0. -/
def exZeroLine : List Char := "00:00 zz|a|b|c".toList

/-- The measurement `exZeroLine` parses to. -/
def exZeroData : TrafficData := ⟨['0', '0', ':', '0', '0'], 0, 0, 0, 0⟩

/-- Witness for C9 at the concrete single-line text `exZeroLine`. -/
theorem parser_fields_nonneg_witness :
    0 ≤ exZeroData.rx_bytes ∧ 0 ≤ exZeroData.tx_bytes ∧ 0 ≤ exZeroData.total_bytes ∧
    0 ≤ exZeroData.avg_rate_bps ∧
    (toRecord exZeroData).rx_bytes = exZeroData.rx_bytes ∧
    (toRecord exZeroData).tx_bytes = exZeroData.tx_bytes ∧
    (toRecord exZeroData).total_bytes = exZeroData.total_bytes ∧
    (toRecord exZeroData).avg_rate_bps = exZeroData.avg_rate_bps :=
  parser_fields_nonneg exZeroLine exZeroData (by rfl)
